import Mathlib

/-
Verification development for the cap-validator upload-validation engine.

The definitions below are a shallow embedding of the Python sources:
  src/cap_validator/errors.py                       (error taxonomy)
  src/cap_upload_validator/gene_mapping/gene_map.py (gene catalog loader)
  src/cap_upload_validator/upload_validator.py      (validation engine)

Python strings are modelled as Lean `String`; the Python `str` methods used by
the sources (`split`, `strip`, `lower`, `startswith`, `endswith`, and the
blank-matching regex) are re-implemented structurally over `String.data` so
that every definition is kernel-executable.  Machine floats stored in the
count matrix are modelled as rationals; `numpy.astype(int)` is truncation
toward zero.  Fallible Python code (raising `TypeError`) returns `Except`.
-/

namespace CapV

/-! ## Python string primitives (structural models of the `str` methods used) -/

/-- Model of Python `x.split(".")[0]`: the longest prefix before the first
dot (the whole string when no dot occurs). -/
def takeUntilDot : List Char → List Char
  | [] => []
  | c :: cs => if c = '.' then [] else c :: takeUntilDot cs

/-- Python `x.split(".")[0]` on a string. -/
def pySplitDotHead (s : String) : String :=
  String.mk (takeUntilDot s.data)

/-- Python `str.startswith`. -/
def pyStartsWith (s pre : String) : Bool :=
  pre.data.isPrefixOf s.data

/-- Python `str.endswith`. -/
def pyEndsWith (s suf : String) : Bool :=
  suf.data.isSuffixOf s.data

/-- Python `str.strip()`: remove leading and trailing whitespace. -/
def pyStrip (s : String) : String :=
  String.mk (((s.data.dropWhile Char.isWhitespace).reverse.dropWhile
    Char.isWhitespace).reverse)

/-- Python `str.lower()`. -/
def pyLower (s : String) : String :=
  String.mk (s.data.map Char.toLower)

/-- Match of the pandas replacement regex `^\s*$`: the string is empty or
consists solely of whitespace. -/
def pyIsBlank (s : String) : Bool :=
  s.data.all Char.isWhitespace

/-! ## Error taxonomy (src/cap_validator/errors.py) -/

/-- A `CapException`: every error in the taxonomy carries a symbolic `name`
and a fixed human-readable `message` (class attributes in the source). -/
structure CapException where
  name : String
  message : String
deriving DecidableEq

/-- `BadAnnDataFile` from errors.py (note: it keeps the base class `name`). -/
def BadAnnDataFile : CapException :=
  ⟨"Unknown", "File format is not supported!"⟩

/-- `AnnDataFileMissingCountMatrix` from errors.py. -/
def AnnDataFileMissingCountMatrix : CapException :=
  ⟨"AnnDataFileMissingCountMatrix",
   "DataFile Incorrect format: raw data matrix is missing in .raw.X or .X."⟩

/-- `AnnDataMissingEmbeddings` from errors.py. -/
def AnnDataMissingEmbeddings : CapException :=
  ⟨"AnnDataMissingEmbeddings",
   "The embedding is missing or is incorrectly named: embeddings must be saved with the prefix X_, for example: X_tsne, X_pca or X_umap."⟩

/-- `AnnDataMisingObsColumns` from errors.py (source spelling preserved). -/
def AnnDataMisingObsColumns : CapException :=
  ⟨"AnnDataMisingObsColumns",
   "Required obs column(s) missing: file must contain \x27assay\x27, \x27disease\x27, \x27organism\x27 and \x27tissue\x27 fields with valid values, see (link to obs section of upload requirements) for more information."⟩

/-- `AnnDataNonStandardVarError` from errors.py. -/
def AnnDataNonStandardVarError : CapException :=
  ⟨"AnnDataNonStandardVarError",
   "File does not contain ENSEMBL terms in var: see (link to var section of upload requirements). We currently support Homo sapiens and Mus musculus. If there are other species you wish to upload to CAP, please contact support@celltype.info and we will work to accommodate your request."⟩

/-- The `CapMultiException` aggregate, viewed as a `CapException` (its
inherited `name`/`message` pair; `message` is the constructor argument,
default empty). -/
def CapMultiExceptionExc (message : String) : CapException :=
  ⟨"CapMultiException", message⟩

/-- The full error taxonomy, the aggregate included. -/
def errorTaxonomy : List CapException :=
  [BadAnnDataFile, AnnDataFileMissingCountMatrix, AnnDataMissingEmbeddings,
   AnnDataMisingObsColumns, AnnDataNonStandardVarError,
   CapMultiExceptionExc ("")]

/-- A Python fault escaping a method (only `TypeError` arises in the
modelled code paths). -/
inductive PyFault
  | typeErr
deriving DecidableEq

/-- An arbitrary Python object handed to `CapException.__eq__`: either a
`CapException` (any subclass instance) or some non-`CapException` object,
identified by its type name. -/
inductive PyVal
  | capExc (e : CapException)
  | nonCap (typeName : String)
deriving DecidableEq

/-- `CapException.__eq__` from errors.py: tuple equality on
`(name, message)` when `other` is a `CapException`, otherwise it raises
`TypeError` (it never returns `False` for foreign objects). -/
def capException_eq (e : CapException) (other : PyVal) : Except PyFault Bool :=
  match other with
  | PyVal.capExc o => Except.ok (decide ((e.name, e.message) = (o.name, o.message)))
  | PyVal.nonCap _ => Except.error PyFault.typeErr

/-! ## Deduplicated error kinds used by the aggregate during validation -/

/-- The four accumulated sub-error kinds appended by the checks. -/
inductive CapError
  | missingCountMatrix
  | missingEmbeddings
  | missingObsColumns
  | nonStandardVar
deriving DecidableEq

/-- The `CapException` value a sub-error kind is appended as. -/
def capErrorToException : CapError → CapException
  | CapError.missingCountMatrix => AnnDataFileMissingCountMatrix
  | CapError.missingEmbeddings => AnnDataMissingEmbeddings
  | CapError.missingObsColumns => AnnDataMisingObsColumns
  | CapError.nonStandardVar => AnnDataNonStandardVarError

/-! ## Gene catalog loader (gene_mapping/gene_map.py) -/

/-- The three `_BasicOrganism` subclasses defined in gene_map.py.  In the
source these are frozen dataclasses used as plain class objects (they are
never instantiated anywhere in the repository). -/
inductive PyOrganism
  | homoSapiens
  | musMusculus
  | multiSpecies
deriving DecidableEq

/-- The two bundled gene-map files. -/
inductive GeneMapPath
  | humanPath
  | mousePath
deriving DecidableEq

/-- The `gene_map_path` class attribute of each organism class.
`MultiSpecies(HomoSapiens)` overrides only `name` and `ontology_id`, so it
INHERITS the human gene-map path from `HomoSapiens`. -/
def gene_map_path : PyOrganism → GeneMapPath
  | PyOrganism.homoSapiens => GeneMapPath.humanPath
  | PyOrganism.musMusculus => GeneMapPath.mousePath
  | PyOrganism.multiSpecies => GeneMapPath.humanPath

/-- A Python value that can be passed as the `organisms` argument of
`GeneMap.data_frame` (or arise inside it): `None`, a string, one of the
organism class objects, an organism *instance* (carrying its
`gene_map_path` field), or a list of such values. -/
inductive PyObj
  | pyNone
  | pyStr (s : String)
  | cls (c : PyOrganism)
  | inst (p : GeneMapPath)
  | pyList (l : List PyObj)

/-- `str_to_organism` from gene_map.py: exact match of the stripped,
lower-cased label against the fixed table; returns the organism CLASS
object (not an instance), or `None`. -/
def str_to_organism (organism_str : String) : PyObj :=
  let clean_str := pyLower (pyStrip organism_str)
  if clean_str = "homo sapiens" then PyObj.cls PyOrganism.homoSapiens
  else if clean_str = "mus musculus" then PyObj.cls PyOrganism.musMusculus
  else if clean_str = "multi species" then PyObj.cls PyOrganism.multiSpecies
  else PyObj.pyNone

/-- Contents of the `ENSEMBL_gene` column of a bundled per-organism CSV.
The two tables are parameters of the development (the CSV files are data,
not code). -/
def readGeneTable (humanT mouseT : List String) : GeneMapPath → List String
  | GeneMapPath.humanPath => humanT
  | GeneMapPath.mousePath => mouseT

/-- `GeneMap.data_frame` from gene_map.py.  `None` defaults to the LIST of
the two class objects `[HomoSapiens, MusMusculus]`; a string is converted
by `str_to_organism` (yielding a class object or `None`).  The subsequent
`for organism in organisms` loop only succeeds on iterable values: lists
(and strings, which iterate over their characters) — iterating a class
object, an instance, or `None` raises `TypeError`.  Inside the loop,
`isinstance(organism, _BasicOrganism)` holds only for INSTANCES, never for
the class objects themselves.  The collected tables are concatenated
(`pd.concat`) when at least one was read, otherwise the result is `None`. -/
def data_frame (humanT mouseT : List String) (organisms0 : PyObj) :
    Except PyFault (Option (List String)) :=
  let organisms1 :=
    match organisms0 with
    | PyObj.pyNone =>
        PyObj.pyList [PyObj.cls PyOrganism.homoSapiens, PyObj.cls PyOrganism.musMusculus]
    | o => o
  let organisms2 :=
    match organisms1 with
    | PyObj.pyStr s => str_to_organism s
    | o => o
  match organisms2 with
  | PyObj.pyList l =>
      let dfs := l.filterMap (fun o =>
        match o with
        | PyObj.inst p => some (readGeneTable humanT mouseT p)
        | _ => none)
      if dfs.length > 0 then Except.ok (some dfs.flatten) else Except.ok none
  | PyObj.pyStr _ =>
      -- unreachable (strings were converted above); a raw string would
      -- iterate over its characters, none of which is an organism instance
      Except.ok none
  | _ => Except.error PyFault.typeErr

/-! ## Recognized organism labels

Modelled from the spec: the `EnsemblOrganism` enumeration is defined in
`gene_mapping/__init__.py`, which is not among the provided source files
(only its importers are).  Per the spec (section 4.1) and the matching
table of `str_to_organism`, the recognized labels are exactly
"Homo sapiens" and "Mus musculus", and the multi-organism fallback label is
"Multi species". -/

/-- `EnsemblOrganism.HUMAN.value`. -/
def EnsemblOrganism_HUMAN : String := "Homo sapiens"

/-- `EnsemblOrganism.MOUSE.value`. -/
def EnsemblOrganism_MOUSE : String := "Mus musculus"

/-- `EnsemblOrganism.MULTI_SPECIES.value`. -/
def EnsemblOrganism_MULTI_SPECIES : String := "Multi species"

/-- `known_organisms_values` built in `_check_var_index` (only Human and
Mouse are supported). -/
def knownOrganismValues : List String :=
  [EnsemblOrganism_HUMAN, EnsemblOrganism_MOUSE]

/-! ## The dataset view (the CapAnnData object consumed by the checks) -/

/-- A count matrix: either a dense block of values or a sparse matrix,
modelled by the per-row lists of its STORED (nonzero) values.  Values are
rationals standing for the stored floats. -/
inductive XMatrix
  | dense (rows : List (List ℚ))
  | sparse (storedRows : List (List ℚ))
deriving DecidableEq

/-- The optional `.raw` part of the dataset: its own matrix and its own
column-metadata index. -/
structure RawView where
  X : Option XMatrix
  var : Option (List String)
deriving DecidableEq

/-- The dataset view handed to the checks: row count (`shape[0]`), primary
matrix, optional raw part, optional embeddings mapping (entry name and
shape), row-metadata table (column name with its cells; a cell is `none`
for NaN), and the column-metadata index. -/
structure Dataset where
  nObs : Nat
  X : Option XMatrix
  raw : Option RawView
  obsm : Option (List (String × List Nat))
  obs : List (String × List (Option String))
  varIndex : List String
deriving DecidableEq

/-- Pandas-style column lookup in the row-metadata table. -/
def lookupColumn (obs : List (String × List (Option String)))
    (c : String) : Option (List (Option String)) :=
  match obs.find? (fun p => p.1 == c) with
  | some p => some p.2
  | none => none

/-! ## Module constants of upload_validator.py -/

/-- `MAX_OBS_ROWS_TO_CHECK`. -/
def MAX_OBS_ROWS_TO_CHECK : Nat := 100

/-- `EMBEDDING_PREFIX` (renamed: the toolchain reserves that suffix). -/
def EMBEDDING_PREF : String := "X_"

/-- `ORGANISM_COLUMN`. -/
def ORGANISM_COLUMN : String := "organism"

/-- `OBS_COLUMNS_REQUIRED = ["assay", "disease", ORGANISM_COLUMN, "tissue"]`. -/
def OBS_COLUMNS_REQUIRED : List String :=
  ["assay", "disease", ORGANISM_COLUMN, "tissue"]

/-! ## Count-matrix check (`_check_X`, `_check_is_positive_integers`) -/

/-- `numpy` `astype(int)` on one value: truncation toward zero. -/
def truncToZero (q : ℚ) : ℤ :=
  if 0 ≤ q then ⌊q⌋ else ⌈q⌉

/-- `has_only_integers`: `np.all((arr - arr.astype(int)) == 0)`. -/
def has_only_integers (arr : List ℚ) : Bool :=
  arr.all (fun v => decide (v - (truncToZero v : ℚ) = 0))

/-- `has_negative_values`: `np.any(arr < 0)`. -/
def has_negative_values (arr : List ℚ) : Bool :=
  arr.any (fun v => decide (v < 0))

/-- The matrix both `_check_X` and `_check_is_positive_integers` select:
`cap_adata.raw.X if cap_adata.raw is not None else cap_adata.X`. -/
def rawOrMainX (d : Dataset) : Option XMatrix :=
  match d.raw with
  | some r => r.X
  | none => d.X

/-- The sampled values of `X[0:max_rows]` with
`max_rows = min(n_cells, MAX_OBS_ROWS_TO_CHECK)`: the stored (`.data`)
values of the sliced rows for a sparse matrix, the dense block otherwise. -/
def sampledValues (nObs : Nat) (m : XMatrix) : List ℚ :=
  let maxRows := min nObs MAX_OBS_ROWS_TO_CHECK
  match m with
  | XMatrix.dense rows => (rows.take maxRows).flatten
  | XMatrix.sparse storedRows => (storedRows.take maxRows).flatten

/-- `_check_is_positive_integers` applied to the selected matrix. -/
def check_is_positive_integers (nObs : Nat) (m : XMatrix) : Bool :=
  if ¬ has_only_integers (sampledValues nObs m) = true ∨
      has_negative_values (sampledValues nObs m) = true then false else true

/-- `_check_X`: append `AnnDataFileMissingCountMatrix` when the selected
matrix is `None` or the positive-integer sample check fails. -/
def check_X (d : Dataset) : List CapError :=
  match rawOrMainX d with
  | none => [CapError.missingCountMatrix]
  | some m =>
      if check_is_positive_integers d.nObs m then [] else [CapError.missingCountMatrix]

/-! ## Embedding check (`_check_obsm`, `_has_embeddings`) -/

/-- `_has_embeddings`: `obsm` exists and some entry name starts with the
embedding prefix and has shape exactly `(n_cells, 2)`. -/
def has_embeddings (d : Dataset) : Bool :=
  match d.obsm with
  | none => false
  | some entries =>
      entries.any (fun e => pyStartsWith e.1 EMBEDDING_PREF && e.2 == [d.nObs, 2])

/-- `_check_obsm`: append `AnnDataMissingEmbeddings` when `_has_embeddings`
is `False`. -/
def check_obsm (d : Dataset) : List CapError :=
  if has_embeddings d = false then [CapError.missingEmbeddings] else []

/-! ## Required-metadata check (`_check_obs`) -/

/-- A cell counts as missing after the `^\s*$ -> NaN` replacement when it
already was NaN or its string is empty or all-whitespace. -/
def cellMissing (c : Option String) : Bool :=
  match c with
  | none => true
  | some s => pyIsBlank s

/-- The per-column scan: after blank replacement, `pd.notna(seria).all()`
fails exactly when some cell is missing. -/
def columnHasMissing (obs : List (String × List (Option String)))
    (c : String) : Bool :=
  match lookupColumn obs c with
  | some cells => cells.any cellMissing
  | none => false

/-- The `for column in OBS_COLUMNS_REQUIRED` loop of `_check_obs`: on the
first required column containing a missing value, append
`AnnDataMisingObsColumns` once and return. -/
def check_obs_go (obs : List (String × List (Option String))) :
    List String → List CapError
  | [] => []
  | c :: rest =>
      if columnHasMissing obs c then [CapError.missingObsColumns]
      else check_obs_go obs rest

/-- `_check_obs`: append once and return when a required column is absent,
otherwise scan the required columns in their fixed order. -/
def check_obs (obs : List (String × List (Option String))) : List CapError :=
  if ¬ (OBS_COLUMNS_REQUIRED.all (fun c => obs.any (fun p => p.1 == c))) then
    [CapError.missingObsColumns]
  else check_obs_go obs OBS_COLUMNS_REQUIRED

/-! ## Gene-identifier check (`_check_var_index`, `_validate_gene_ids`) -/

/-- `_remove_gene_version`: strip everything from the first dot onward in
each index entry (`ENSG0001.8 -> ENSG0001`). -/
def removeGeneVersion (ensemble_ids : List String) : List String :=
  ensemble_ids.map pySplitDotHead

/-- The raw-subset sub-check of `_check_var_index`: when `.raw` and
`.raw.var` exist, the ORIGINAL `var.index` (not the canonicalized one)
must be a subset of `raw.var.index`. -/
def rawSubsetOk (d : Dataset) : Bool :=
  match d.raw with
  | some r =>
      match r.var with
      | some rawVar => d.varIndex.all (fun g => rawVar.contains g)
      | none => true
  | none => true

/-- The distinct organism labels of the dataset: `unique()` of the
`organism` column as a set, with the exact empty string removed (NaN cells
and whitespace-only labels are kept); the empty list when the column is
absent. -/
def datasetOrganisms (d : Dataset) : List (Option String) :=
  match lookupColumn d.obs ORGANISM_COLUMN with
  | some col => col.dedup.filter (fun x => !(x == some ("")))
  | none => []

/-- `pd.api.types.is_any_real_numeric_dtype` applied to the canonicalized
index.  The canonical index is produced by string-splitting the `var.index`
entries, so its pandas dtype is `object` (strings), for which the predicate
is always `False`. -/
def is_any_real_numeric_dtype (_ens_ids : List String) : Bool := false

/-- `_validate_gene_ids`: when the ids are not numeric-dtyped and not
empty, load the catalog with `GeneMap.data_frame(organisms=organism)` (a
fault there propagates; a `None` frame would fault at the subsequent
column subscription) and require every id to be `isin` the
`ENSEMBL_gene` column; otherwise the gene names count as missed.  Each
failing branch appends `AnnDataNonStandardVarError`. -/
def validate_gene_ids (humanT mouseT : List String)
    (ens_ids : List String) (organism : String) :
    Except PyFault (List CapError) :=
  if ¬ is_any_real_numeric_dtype ens_ids ∧ ens_ids ≠ [] then
    match data_frame humanT mouseT (PyObj.pyStr organism) with
    | Except.error f => Except.error f
    | Except.ok none => Except.error PyFault.typeErr
    | Except.ok (some catalog) =>
        if ens_ids.all (fun g => catalog.contains g) then Except.ok []
        else Except.ok [CapError.nonStandardVar]
  else Except.ok [CapError.nonStandardVar]

/-- `_check_var_index`: canonicalize the index; stop with
`AnnDataNonStandardVarError` when the canonical ids are not unique, or when
the raw-subset sub-check fails; then resolve the organism set: exactly one
label that is a known organism is validated against its catalog, one
unknown label skips validation, two or more labels are validated as
`MULTI_SPECIES`, zero labels skip. -/
def check_var_index (humanT mouseT : List String) (d : Dataset) :
    Except PyFault (List CapError) :=
  if ¬ (removeGeneVersion d.varIndex).Nodup then Except.ok [CapError.nonStandardVar]
  else if rawSubsetOk d = false then Except.ok [CapError.nonStandardVar]
  else if (datasetOrganisms d).length = 1 then
    match (datasetOrganisms d).head? with
    | some (some organism) =>
        if organism ∈ knownOrganismValues then
          validate_gene_ids humanT mouseT (removeGeneVersion d.varIndex) organism
        else Except.ok []
    | _ => Except.ok []
  else if (datasetOrganisms d).length > 1 then
    validate_gene_ids humanT mouseT (removeGeneVersion d.varIndex)
      EnsemblOrganism_MULTI_SPECIES
  else Except.ok []

/-! ## The validation engine (`UploadValidator.validate`) -/

/-- Outcome of one `validate` call: the terminal `BadAnnDataFile` raise, an
uncaught Python fault escaping a check, the raised aggregate (its ordered
error list), or success. -/
inductive VOutcome
  | badFile
  | fault (f : PyFault)
  | raisedAgg (errors : List CapError)
  | passedOk
deriving DecidableEq

/-- One `validate` call on a validator whose aggregator currently holds
`agg` (the `CapMultiException` is created in `UploadValidator.__init__`, so
it persists across calls on the same validator instance).  The path must
end in `.h5ad`, otherwise `BadAnnDataFile` is raised before any check.
Then the four checks append, in execution order: `_check_X`, `_check_obsm`,
`_check_obs`, `_check_var_index` — a fault inside the last one escapes with
the aggregate unraised.  Finally the aggregate is raised exactly when it
holds at least one error.  Returns the post-call aggregator content and the
outcome. -/
def validate (humanT mouseT : List String) (path : String) (d : Dataset)
    (agg : List CapError) : List CapError × VOutcome :=
  if pyEndsWith path (".h5ad") = false then (agg, VOutcome.badFile)
  else
    match check_var_index humanT mouseT d with
    | Except.error f =>
        (agg ++ check_X d ++ check_obsm d ++ check_obs d.obs, VOutcome.fault f)
    | Except.ok varErrs =>
        if (agg ++ check_X d ++ check_obsm d ++ check_obs d.obs ++ varErrs).length > 0 then
          (agg ++ check_X d ++ check_obsm d ++ check_obs d.obs ++ varErrs,
            VOutcome.raisedAgg
              (agg ++ check_X d ++ check_obsm d ++ check_obs d.obs ++ varErrs))
        else
          (agg ++ check_X d ++ check_obsm d ++ check_obs d.obs ++ varErrs,
            VOutcome.passedOk)

/-- A `validate` call on a freshly constructed `UploadValidator` (its
`__init__` creates an empty `CapMultiException`). -/
def validateFresh (humanT mouseT : List String) (path : String)
    (d : Dataset) : List CapError × VOutcome :=
  validate humanT mouseT path d []

/-- The dataset with its `.raw` part dropped (used to state that a passing
raw-subset sub-check leaves the rest of the gene-id check unchanged:
`.raw` is consulted nowhere else in `_check_var_index`). -/
def withoutRaw (d : Dataset) : Dataset :=
  ⟨d.nObs, d.X, none, d.obsm, d.obs, d.varIndex⟩

/-! ## Claim-side predicates

These are phrased from the words of the specification, independent of the
control flow of the checks, and are compared with the code-derived
definitions above in the theorems. -/

/-- The sample the count-matrix check looks at per the spec: the first
`min(n_rows, 100)` rows of the examined matrix (raw when present, primary
otherwise), the stored nonzero values when sparse, the dense block
otherwise; the empty sample when the matrix is absent. -/
@[reducible] def selectedSample (d : Dataset) : List ℚ :=
  match rawOrMainX d with
  | none => []
  | some m => sampledValues d.nObs m

/-- The spec condition for `MissingCountMatrix`: the matrix is absent, or
some sampled value differs from its truncation toward zero, or some
sampled value is negative. -/
@[reducible] def claimMissingCountMatrix (d : Dataset) : Prop :=
  rawOrMainX d = none ∨
    ∃ q ∈ selectedSample d, q ≠ ((truncToZero q : ℤ) : ℚ) ∨ q < 0

/-- The spec condition: each of the four required columns is present in
the row-metadata table. -/
@[reducible] def requiredColumnsPresent
    (obs : List (String × List (Option String))) : Prop :=
  ∀ c ∈ OBS_COLUMNS_REQUIRED, (lookupColumn obs c).isSome = true

/-- The spec condition: some required column contains a value that is
missing (NaN, empty, or whitespace-only). -/
@[reducible] def someRequiredColumnMissingValue
    (obs : List (String × List (Option String))) : Prop :=
  ∃ c ∈ OBS_COLUMNS_REQUIRED, columnHasMissing obs c = true

/-- The spec condition for the embedding check to pass: some entry of the
embeddings mapping has a name starting with the fixed prefix and shape
exactly `(n, 2)` (`False` when the mapping is absent). -/
@[reducible] def embeddingClaimPass (d : Dataset) : Prop :=
  ∃ e ∈ d.obsm.getD [], pyStartsWith e.1 EMBEDDING_PREF = true ∧ e.2 = [d.nObs, 2]

/-! ## Concrete datasets used as witnesses and counterexamples -/

/-- A dataset whose only defect is a missing embedding: an all-zero sparse
count matrix (nothing stored), all four metadata columns populated, an
unrecognized single organism label, a unique gene index, no raw part, and
no embeddings mapping. -/
def dsOneError : Dataset :=
  ⟨1, some (XMatrix.sparse [[]]), none, none,
   [⟨"assay", [some ("a")]⟩, ⟨"disease", [some ("b")]⟩,
    ⟨"organism", [some ("x")]⟩, ⟨"tissue", [some ("t")]⟩], ["g1"]⟩

/-- A dataset with two distinct organism labels and a non-numeric gene
index (the multi-species catalog path). -/
def dsMultiOrganism : Dataset :=
  ⟨2, none, none, none,
   [⟨"organism", [some ("Homo sapiens"), some ("new organism")]⟩], ["ENSG1"]⟩

/-- A dataset whose raw column metadata holds the canonical id while the
primary index carries a version suffix: the canonical primary identifier
is a member of the raw identifier set but the original one is not. -/
def dsVersionedRaw : Dataset :=
  ⟨1, none, some ⟨none, some ["ENSG1"]⟩, none, [], ["ENSG1.5"]⟩

/-- A dataset that accumulates three errors (missing matrix, missing
embeddings, missing metadata columns) and then hits the known-organism
catalog path with a non-numeric unique gene index. -/
def dsKnownOrganism : Dataset :=
  ⟨1, none, none, none, [⟨"organism", [some ("Homo sapiens")]⟩], ["ENSG1"]⟩

/-- A dataset whose count matrix passes the sampled check (sparse with no
stored values). -/
def dsGoodMatrix : Dataset :=
  ⟨1, some (XMatrix.sparse [[]]), none, none, [], []⟩

/-- A dataset with a qualifying embedding entry. -/
def dsGoodEmbedding : Dataset :=
  ⟨5, none, none, some [⟨"X_umap", [5, 2]⟩], [], []⟩

/-- A dataset with a single unrecognized organism label and a unique
canonical gene index. -/
def dsUnknownOrganism : Dataset :=
  ⟨1, none, none, none, [⟨"organism", [some ("alien")]⟩], ["g1", "g2"]⟩

/-! ## Helper lemmas -/

/-- The sampled positive-integer check fails exactly when some sampled
value is non-integral or negative. -/
theorem check_is_positive_integers_eq_false_iff (n : Nat) (m : XMatrix) :
    check_is_positive_integers n m = false ↔
      ∃ q ∈ sampledValues n m, q ≠ ((truncToZero q : ℤ) : ℚ) ∨ q < 0 := by
  by_cases h : ¬ has_only_integers (sampledValues n m) = true ∨
      has_negative_values (sampledValues n m) = true
  · have hc : check_is_positive_integers n m = false := by
      unfold check_is_positive_integers
      exact if_pos h
    rw [hc]
    simp only [true_iff]
    rcases h with h | h
    · simp only [has_only_integers, List.all_eq_true, decide_eq_true_eq] at h
      push_neg at h
      rcases h with ⟨q, hq, hne⟩
      exact ⟨q, hq, Or.inl (by rwa [sub_ne_zero] at hne)⟩
    · simp only [has_negative_values, List.any_eq_true, decide_eq_true_eq] at h
      rcases h with ⟨q, hq, hlt⟩
      exact ⟨q, hq, Or.inr hlt⟩
  · have hc : check_is_positive_integers n m = true := by
      unfold check_is_positive_integers
      exact if_neg h
    rw [hc]
    push_neg at h
    obtain ⟨hall, hneg⟩ := h
    simp only [has_only_integers, List.all_eq_true, decide_eq_true_eq,
      sub_eq_zero] at hall
    simp only [has_negative_values, List.any_eq_true, decide_eq_true_eq,
      Bool.not_eq_true] at hneg
    constructor
    · intro hf
      exact absurd hf (by simp)
    · rintro ⟨q, hq, hbad | hbad⟩
      · exact absurd (hall q hq) hbad
      · have : ¬ (sampledValues n m).any (fun v => decide (v < 0)) = true := by
          simp [hneg]
        exact absurd (List.any_eq_true.mpr ⟨q, hq, by simpa using hbad⟩) this

/-- Column presence in the table coincides with the membership test of
`_check_obs`. -/
theorem lookupColumn_isSome_iff (obs : List (String × List (Option String)))
    (c : String) :
    (lookupColumn obs c).isSome = true ↔ obs.any (fun p => p.1 == c) = true := by
  unfold lookupColumn
  cases h : obs.find? (fun p => p.1 == c) with
  | none =>
      simp only [Option.isSome_none, Bool.false_eq_true, false_iff]
      intro ha
      rcases List.any_eq_true.mp ha with ⟨x, hx, hpx⟩
      exact absurd hpx (by simpa using List.find?_eq_none.mp h x hx)
  | some pr =>
      simp only [Option.isSome_some, true_iff]
      have hmem := List.mem_of_find?_eq_some h
      have hp := List.find?_some h
      exact List.any_eq_true.mpr ⟨pr, hmem, hp⟩

/-- The required-column loop of `_check_obs` appends once exactly when some
listed column contains a missing value. -/
theorem check_obs_go_eq (obs : List (String × List (Option String)))
    (cols : List String) :
    check_obs_go obs cols =
      if cols.any (fun c => columnHasMissing obs c) then
        [CapError.missingObsColumns]
      else [] := by
  induction cols with
  | nil => rfl
  | cons c rest ih =>
      unfold check_obs_go
      by_cases h : columnHasMissing obs c = true
      · simp [h]
      · simp only [Bool.not_eq_true] at h
        simp [h, ih]

/-! ## Claim theorems -/

/-- Claim C5: the count-matrix check examines the raw matrix when present,
otherwise the primary matrix; it samples the first `min(n_rows, 100)` rows
(stored values when sparse, the dense block otherwise) and appends
`MissingCountMatrix` exactly when the matrix is absent, some sampled value
differs from its truncation toward zero, or some sampled value is
negative; otherwise it appends nothing. -/
theorem c5_count_matrix_check (d : Dataset) :
    (∀ r, d.raw = some r → rawOrMainX d = r.X) ∧
    (d.raw = none → rawOrMainX d = d.X) ∧
    (claimMissingCountMatrix d → check_X d = [CapError.missingCountMatrix]) ∧
    (¬ claimMissingCountMatrix d → check_X d = []) := by
  refine ⟨?_, ?_, ?_, ?_⟩
  · intro r hr
    simp [rawOrMainX, hr]
  · intro hr
    simp [rawOrMainX, hr]
  · intro hc
    unfold check_X
    cases hX : rawOrMainX d with
    | none => rfl
    | some m =>
        rcases hc with hnone | ⟨q, hq, hbad⟩
        · rw [hX] at hnone
          cases hnone
        · have hf : check_is_positive_integers d.nObs m = false := by
            rw [check_is_positive_integers_eq_false_iff]
            refine ⟨q, ?_, hbad⟩
            unfold selectedSample at hq
            rw [hX] at hq
            exact hq
          simp [hf]
  · intro hc
    unfold check_X
    cases hX : rawOrMainX d with
    | none => exact absurd (Or.inl hX) hc
    | some m =>
        cases hb : check_is_positive_integers d.nObs m with
        | false =>
            obtain ⟨q, hq, hbad⟩ :=
              (check_is_positive_integers_eq_false_iff d.nObs m).mp hb
            refine absurd (Or.inr ⟨q, ?_, hbad⟩) hc
            unfold selectedSample
            rw [hX]
            exact hq
        | true => simp [hb]

/-- Claim C6: the required-metadata check appends `MissingObsColumns` once
and returns when a required column is absent; otherwise it scans the
required columns in their fixed order and appends `MissingObsColumns` once
on the first column containing a missing (empty or whitespace-only or NaN)
value; at most one `MissingObsColumns` arises per invocation. -/
theorem c6_required_metadata_check (obs : List (String × List (Option String))) :
    (¬ requiredColumnsPresent obs → check_obs obs = [CapError.missingObsColumns]) ∧
    (requiredColumnsPresent obs → someRequiredColumnMissingValue obs →
        check_obs obs = [CapError.missingObsColumns]) ∧
    (requiredColumnsPresent obs → ¬ someRequiredColumnMissingValue obs →
        check_obs obs = []) ∧
    (check_obs obs).length ≤ 1 := by
  have hsub : (OBS_COLUMNS_REQUIRED.all (fun c => obs.any (fun p => p.1 == c)) = true)
      ↔ requiredColumnsPresent obs := by
    rw [List.all_eq_true]
    constructor
    · intro h c hc
      exact (lookupColumn_isSome_iff obs c).mpr (h c hc)
    · intro h c hc
      exact (lookupColumn_isSome_iff obs c).mp (h c hc)
  have hmiss : (OBS_COLUMNS_REQUIRED.any (fun c => columnHasMissing obs c) = true)
      ↔ someRequiredColumnMissingValue obs := List.any_eq_true
  refine ⟨?_, ?_, ?_, ?_⟩
  · intro h
    unfold check_obs
    rw [if_pos]
    intro hall
    exact h (hsub.mp hall)
  · intro hp hm
    unfold check_obs
    rw [if_neg (not_not_intro (hsub.mpr hp)), check_obs_go_eq,
      if_pos (hmiss.mpr hm)]
  · intro hp hm
    unfold check_obs
    rw [if_neg (not_not_intro (hsub.mpr hp)), check_obs_go_eq, if_neg]
    intro hany
    exact hm (hmiss.mp hany)
  · unfold check_obs
    by_cases hall : OBS_COLUMNS_REQUIRED.all (fun c => obs.any (fun p => p.1 == c)) = true
    · rw [if_neg (not_not_intro hall), check_obs_go_eq]
      by_cases hany : OBS_COLUMNS_REQUIRED.any (fun c => columnHasMissing obs c) = true
      · simp [hany]
      · simp [hany]
    · rw [if_pos hall]
      simp

/-- Claim C8: the embedding check passes exactly when some entry of the
embeddings mapping has a name starting with the prefix and shape exactly
`(n, 2)`; in every other case, the absent mapping included, it appends
`MissingEmbeddings`. -/
theorem c8_embedding_check (d : Dataset) :
    (embeddingClaimPass d → check_obsm d = []) ∧
    (¬ embeddingClaimPass d → check_obsm d = [CapError.missingEmbeddings]) := by
  have hiff : has_embeddings d = true ↔ embeddingClaimPass d := by
    unfold has_embeddings embeddingClaimPass
    cases hob : d.obsm with
    | none => simp
    | some entries =>
        simp [List.any_eq_true, Bool.and_eq_true, beq_iff_eq]
  constructor
  · intro h
    have hb := hiff.mpr h
    simp [check_obsm, hb]
  · intro h
    have hb : has_embeddings d = false := by
      cases hb : has_embeddings d with
      | false => rfl
      | true => exact absurd (hiff.mp hb) h
    simp [check_obsm, hb]

/-- Claim C8 witness: a dataset with a `(5, 2)`-shaped entry named
`X_umap` passes the embedding check. -/
theorem c8_embedding_check_witness : check_obsm dsGoodEmbedding = [] :=
  (c8_embedding_check dsGoodEmbedding).1 (by decide)

/-- Claim C9: with unique canonical identifiers and a passing raw-subset
sub-check, a single unrecognized organism label — and likewise an empty
organism label set — makes the gene-identifier check append nothing. -/
theorem c9_unknown_organism_skips (humanT mouseT : List String) (d : Dataset)
    (h1 : (removeGeneVersion d.varIndex).Nodup)
    (h2 : rawSubsetOk d = true)
    (h3 : datasetOrganisms d = [] ∨
      ∃ o, datasetOrganisms d = [o] ∧ o ∉ knownOrganismValues.map some) :
    check_var_index humanT mouseT d = Except.ok [] := by
  unfold check_var_index
  rw [if_neg (not_not_intro h1), if_neg (by simp [h2])]
  rcases h3 with h | ⟨o, ho, hk⟩
  · simp [h]
  · rw [ho]
    simp only [List.length_singleton, if_pos rfl, List.head?_cons]
    cases o with
    | none => rfl
    | some s =>
        have hs : s ∉ knownOrganismValues := fun hmem =>
          hk (List.mem_map_of_mem some hmem)
        simp [hs]

/-- Claim C9 witness: a dataset whose single organism label is the
unrecognized "alien" skips gene-id validation with no error. -/
theorem c9_unknown_organism_skips_witness :
    check_var_index [] [] dsUnknownOrganism = Except.ok [] :=
  c9_unknown_organism_skips [] [] dsUnknownOrganism (by decide) (by decide)
    (Or.inr ⟨some ("alien"), by decide, by decide⟩)

/-- Claim C10: comparing any error of the taxonomy (the aggregate
included) with a non-`CapException` object raises `TypeError` instead of
returning `False`, while equality between two `CapException`s is decided
by the `(name, message)` pair. -/
theorem c10_exception_equality (e : CapException) (_he : e ∈ errorTaxonomy) :
    (∀ t : String, capException_eq e (PyVal.nonCap t) = Except.error PyFault.typeErr) ∧
    (∀ o : CapException, capException_eq e (PyVal.capExc o) =
        Except.ok (decide ((e.name, e.message) = (o.name, o.message)))) :=
  ⟨fun _ => rfl, fun _ => rfl⟩

/-- Claim C10 witness: `BadAnnDataFile` compared with an `int` raises
`TypeError`; compared with a different error it returns `False`. -/
theorem c10_exception_equality_witness :
    capException_eq BadAnnDataFile (PyVal.nonCap ("int")) =
      Except.error PyFault.typeErr ∧
    capException_eq BadAnnDataFile (PyVal.capExc AnnDataMissingEmbeddings) =
      Except.ok false := by
  have h := c10_exception_equality BadAnnDataFile (by decide)
  refine ⟨h.1 ("int"), ?_⟩
  rw [h.2 AnnDataMissingEmbeddings]
  exact congrArg Except.ok (by decide)

/-- Claim C1 counterexample: the aggregator is created in the validator
constructor, not per `validate` call, so a second `validate` call on the
same validator instance starts from the first call aggregate: on a
one-error dataset the second raised aggregate holds the error twice and
differs from the first. -/
theorem c1_shared_aggregator_counterexample :
    (validateFresh [] [] ("f.h5ad") dsOneError).2 =
      VOutcome.raisedAgg [CapError.missingEmbeddings] ∧
    (validate [] [] ("f.h5ad") dsOneError
        (validateFresh [] [] ("f.h5ad") dsOneError).1).2 =
      VOutcome.raisedAgg [CapError.missingEmbeddings, CapError.missingEmbeddings] ∧
    (validate [] [] ("f.h5ad") dsOneError
        (validateFresh [] [] ("f.h5ad") dsOneError).1).2 ≠
      (validateFresh [] [] ("f.h5ad") dsOneError).2 :=
  ⟨rfl, rfl, by decide⟩

/-- Claim C1 (amended): the aggregator is per validator instance and
append-only: a `validate` call starting from aggregate `agg` ends with
`agg` followed by exactly the dataset-determined error sequence of a
fresh-instance call, so fresh instances always observe identical ordered
aggregates while a reused instance observes the previous call errors. -/
theorem c1_aggregator_per_instance (humanT mouseT : List String) (path : String)
    (d : Dataset) (agg : List CapError) :
    (validate humanT mouseT path d agg).1 =
      agg ++ (validate humanT mouseT path d []).1 := by
  unfold validate
  cases hp : pyEndsWith path (".h5ad") with
  | false => simp
  | true =>
      cases hv : check_var_index humanT mouseT d with
      | error f => simp [List.append_assoc]
      | ok ve =>
          simp only [Bool.true_eq_false, if_false]
          split <;> split <;> simp [List.append_assoc]

/-- Claim C2: on a dataset with two distinct organism labels and a
non-numeric gene index, the multi-species catalog load raises `TypeError`
(iterating the `MultiSpecies` class object) instead of validating against
any catalog; moreover `MultiSpecies` inherits the HUMAN gene-map path, so
no combined Human+Mouse concatenation is reachable from it. -/
theorem c2_multi_species_fault :
    check_var_index ["ENSG1"] [] dsMultiOrganism = Except.error PyFault.typeErr ∧
    data_frame ["ENSG1"] [] (PyObj.pyStr EnsemblOrganism_MULTI_SPECIES) =
      Except.error PyFault.typeErr ∧
    gene_map_path PyOrganism.multiSpecies = GeneMapPath.humanPath :=
  ⟨rfl, rfl, rfl⟩

/-- Claim C3 counterexample: with the raw identifier set holding the
canonical id `ENSG1` and the primary index holding the versioned
`ENSG1.5`, every canonical primary identifier is a member of the raw set,
yet the check appends `NonStandardVar`: the code compares the ORIGINAL
index, not the canonical one, against `raw.var.index`. -/
theorem c3_canonical_vs_original_counterexample :
    removeGeneVersion dsVersionedRaw.varIndex = ["ENSG1"] ∧
    (removeGeneVersion dsVersionedRaw.varIndex).all
      (fun g => (["ENSG1"] : List String).contains g) = true ∧
    (removeGeneVersion dsVersionedRaw.varIndex).Nodup ∧
    check_var_index [] [] dsVersionedRaw = Except.ok [CapError.nonStandardVar] := by
  exact ⟨rfl, rfl, by decide, rfl⟩

/-- Claim C3 (amended): when the raw column-metadata table exists and the
canonical identifiers are unique, the check requires every ORIGINAL
(version suffix retained) primary identifier to be a member of the raw
identifier set: if any is not, it appends `NonStandardVar` and performs no
further sub-checks; if all are, the raw part plays no further role in the
gene-identifier check. -/
theorem c3_raw_subset_uses_original (humanT mouseT : List String) (d : Dataset)
    (rv : List String)
    (hu : (removeGeneVersion d.varIndex).Nodup)
    (hr : d.raw.bind RawView.var = some rv) :
    (d.varIndex.all (fun g => rv.contains g) = false →
        check_var_index humanT mouseT d = Except.ok [CapError.nonStandardVar]) ∧
    (d.varIndex.all (fun g => rv.contains g) = true →
        check_var_index humanT mouseT d =
          check_var_index humanT mouseT (withoutRaw d)) := by
  obtain ⟨r, hr1, hr2⟩ := Option.bind_eq_some.mp hr
  constructor
  · intro hfail
    have hraw : rawSubsetOk d = false := by
      simp only [rawSubsetOk, hr1, hr2]
      simpa using hfail
    unfold check_var_index
    rw [if_neg (not_not_intro hu), if_pos hraw]
  · intro hpass
    have hraw : rawSubsetOk d = true := by
      simp only [rawSubsetOk, hr1, hr2]
      simpa using hpass
    have hraw2 : rawSubsetOk (withoutRaw d) = true := rfl
    have e1 : removeGeneVersion (withoutRaw d).varIndex =
        removeGeneVersion d.varIndex := rfl
    have e2 : datasetOrganisms (withoutRaw d) = datasetOrganisms d := rfl
    unfold check_var_index
    rw [e1, e2, hraw, hraw2]

/-- Claim C3 (amended) witness: the versioned index `ENSG1.5` is not a
member of the raw set, so the check stops with `NonStandardVar`. -/
theorem c3_raw_subset_uses_original_witness :
    check_var_index [] [] dsVersionedRaw = Except.ok [CapError.nonStandardVar] :=
  (c3_raw_subset_uses_original [] [] dsVersionedRaw ["ENSG1"]
    (by decide) rfl).1 rfl

/-- Claim C4: a non-`.h5ad` path raises `BadAnnDataFile` with no check
run; but on an `.h5ad` dataset with a known organism label, errors
appended by the first three checks are never raised because the fourth
check raises `TypeError` out of the catalog loader before the aggregate
is inspected. -/
theorem c4_orchestration_fault :
    validate [] [] ("a.txt") dsKnownOrganism [] = ([], VOutcome.badFile) ∧
    validate [] [] ("a.h5ad") dsKnownOrganism [] =
      ([CapError.missingCountMatrix, CapError.missingEmbeddings,
        CapError.missingObsColumns], VOutcome.fault PyFault.typeErr) :=
  ⟨rfl, rfl⟩

/-- Claim C7: the catalog loader returns `None` for the default (absent)
selector — which defaults to the NON-EMPTY list of the Human and Mouse
class objects, none of which passes the `isinstance` test — and raises
`TypeError` for a recognized organism string (iterating a class object);
only a list of organism instances, which the repository never constructs,
yields the concatenated tables. -/
theorem c7_loader_empty_result (humanT mouseT : List String) :
    data_frame humanT mouseT PyObj.pyNone = Except.ok none ∧
    data_frame humanT mouseT (PyObj.pyStr ("Homo sapiens")) =
      Except.error PyFault.typeErr ∧
    data_frame humanT mouseT
      (PyObj.pyList [PyObj.inst GeneMapPath.humanPath,
        PyObj.inst GeneMapPath.mousePath]) =
      Except.ok (some (humanT ++ mouseT)) := by
  refine ⟨rfl, rfl, ?_⟩
  simp [data_frame, readGeneTable]

/-- Claim C5 witness: a sparse matrix with no stored values passes the
count-matrix check. -/
theorem c5_count_matrix_check_witness : check_X dsGoodMatrix = [] :=
  (c5_count_matrix_check dsGoodMatrix).2.2.2 (by decide)

/-- Claim C6 witness: a table with all four required columns populated by
non-blank values passes the required-metadata check. -/
theorem c6_required_metadata_check_witness : check_obs dsOneError.obs = [] :=
  (c6_required_metadata_check dsOneError.obs).2.2.1 (by decide) (by decide)

end CapV
